import Mathlib

/-!
# Verification of the Auto_ALM synchronization orchestrator

Shallow embedding of the Python sources (`Auto_ALM.py`, `Auto_ALM2.py`,
`Alm7.py`, `53.py`) of the Auto_ALM repository, together with theorems
settling the specification's claims about capacity assessment, run
summaries, the fallback promotion protocol, revision selection, error
conversion, bounded retries and workspace scanning.

Numeric conventions: byte counts are `Nat` (Python ints), percentages are
`ℚ` (Python float division, modelled exactly).  Fallible remote calls are
modelled by explicit outcome types (`Option`/`Except`/inductives), and the
`try/except` structure of the Python code becomes total pattern matches.
-/

namespace AutoALM

/-- Result record of `estimate_post_sync_size` in `Auto_ALM.py`
(lines 316-329): `{"current": ..., "allocation": ..., "after": ...,
"pct_after": ..., "revision_size": ...}`. -/
structure SizeInfo where
  current : ℕ
  allocation : ℕ
  after : ℕ
  pct_after : ℚ
  revision_size : ℕ
  deriving Repr, DecidableEq

/-- `estimate_post_sync_size` from `Auto_ALM.py` (lines 316-329).

`current_used, allocation` are the pair returned by `get_workspace_usage`
(itself total: it returns `(0, 0)` whenever the workspace cannot be
determined).  `fileSize` is the outcome of `os.path.getsize(revision_file_path)`:
`none` models every failure of the `try` block (empty path from `mh_file or ""`,
`None` coerced to `""`, nonexistent or unreadable file), in which case the
`except` branch keeps `revision_size = 0`.  The percentage is
`after / allocation` when `allocation > 0` and `0.0` otherwise. -/
def estimate_post_sync_size (current_used allocation : ℕ) (fileSize : Option ℕ) :
    SizeInfo :=
  let revision_size : ℕ := fileSize.getD 0
  let after : ℕ := current_used + revision_size
  let pct : ℚ := if allocation > 0 then (after : ℚ) / (allocation : ℚ) else 0
  { current := current_used, allocation := allocation, after := after,
    pct_after := pct, revision_size := revision_size }

/-- The confirmation gate of `ask_revision_choice_for_pair` in `Auto_ALM.py`
(lines 413-420): when `size_info["pct_after"] > 0.95` the user is prompted
whether to proceed; otherwise the script prints "Proceeding." and sets
`proceed = True` without asking. -/
def needsConfirmation (si : SizeInfo) : Bool :=
  decide (si.pct_after > 95 / 100)

/-- `proceed` as computed by the else-branch of lines 413-420: whenever
no confirmation prompt fires, the pair is auto-approved.  The prompted
branch sets `proceed` from the user's answer instead. -/
def proceedWithoutPrompt (si : SizeInfo) : Bool :=
  !(needsConfirmation si)

/-- The two risk levels the code actually distinguishes at the gate,
ordered with `autoProceed < prompt` (towards more risk). -/
inductive Gate where
  | autoProceed
  | prompt
  deriving Repr, DecidableEq

/-- The code's risk classification: the branch taken at lines 413-420. -/
def gate (si : SizeInfo) : Gate :=
  if needsConfirmation si then Gate.prompt else Gate.autoProceed

/-- A revision tag as handled by `Auto_ALM.py` (list elements of
`list_revision_tags`): a dict probed for `"name"` and `"id"`. -/
structure Tag where
  id : String
  name : String
  deriving Repr, DecidableEq

/-- `tags[0].get("name") or tags[0].get("id")` (line 357): Python `or`
falls back to the id when the name is falsy (empty). -/
def tagLabel (t : Tag) : String :=
  if t.name = "" then t.id else t.name

/-- The `selection` dict of `ask_revision_choice_for_pair`. -/
structure Selection where
  choice : String
  tag_name : Option String
  deriving Repr, DecidableEq

/-- Choice `"1"` ("use immediate available (latest) revision tag") of
`ask_revision_choice_for_pair` in `Auto_ALM.py` (lines 352-362): when the
listing is non-empty it picks `tags[0]` — the FIRST element of the listing
order; when it is empty it switches the selection's choice to `"2"`
(create a new tag). -/
def chooseImmediateLatest (tags : List Tag) : Selection :=
  match tags.head? with
  | some t => { choice := "1", tag_name := some (tagLabel t) }
  | none => { choice := "2", tag_name := none }

/-- One configured dev→prod pair from `config.json`. -/
structure Pair where
  dev : String
  prod : String
  deriving Repr, DecidableEq

/-- A planned sync task: the dict returned by `ask_revision_choice_for_pair`
(lines 422-430), restricted to the fields the executor and summary read. -/
structure Task where
  dev : String
  prod : String
  tag_name : Option String
  proceed : Bool
  deriving Repr, DecidableEq

/-- Outcome of the remote promote call inside `sync_revision_to_prod`:
either an HTTP response (any status, body) or a raised
`requests.RequestException` (timeout, connection failure, ...). -/
inductive RemoteOutcome where
  | resp (status : ℕ) (body : String)
  | transportErr (msg : String)
  deriving Repr, DecidableEq

/-- The result dict of `sync_revision_to_prod`. -/
structure SyncResult where
  dev : String
  prod : String
  status : String
  detail : String
  deriving Repr, DecidableEq

/-- `sync_revision_to_prod` from `Auto_ALM.py` (lines 436-462): a 2xx
status (200/201/202) yields `status="started"`; any other well-formed
response yields `status="failed"` (no exception is raised); a raised
`RequestException` is caught by the function's own `except` clause and
converted to `status="error"`.  The function is total: every remote
outcome maps to a result record. -/
def sync_revision_to_prod (t : Task) (out : RemoteOutcome) : SyncResult :=
  match out with
  | .resp s body =>
    if s = 200 ∨ s = 201 ∨ s = 202 then
      { dev := t.dev, prod := t.prod, status := "started", detail := body }
    else
      { dev := t.dev, prod := t.prod, status := "failed", detail := body }
  | .transportErr e =>
    { dev := t.dev, prod := t.prod, status := "error", detail := e }

/-- Outcome of `ask_revision_choice_for_pair` for one pair as observed by
`main` (lines 552-559): either the details dict (tag and proceed decision)
or a raised exception. -/
inductive InteractOutcome where
  | ok (tag : Option String) (proceed : Bool)
  | exn (msg : String)

/-- The plan-collection loop of `main` (`Auto_ALM.py` lines 541-559): for
every configured pair exactly one entry is appended to `sync_plan` — the
interaction's details on success, or a skip entry
(`{"dev": dev, "prod": prod, "proceed": False, "tag_name": None, ...}`)
when the interaction raises. -/
def collectPlan (pairs : List Pair) (interact : ℕ → Pair → InteractOutcome) :
    List Task :=
  pairs.enum.map fun ip =>
    match interact ip.1 ip.2 with
    | .ok tag proceed => { dev := ip.2.dev, prod := ip.2.prod, tag_name := tag, proceed := proceed }
    | .exn _ => { dev := ip.2.dev, prod := ip.2.prod, tag_name := none, proceed := false }

/-- `parallel_sync_executor` from `Auto_ALM.py` (lines 465-488): tasks with
`proceed == False` are filtered out before submission; `executor.map`
yields the workers' results in input (submission) order. -/
def parallel_sync_executor (f : Task → SyncResult) (sync_tasks : List Task) :
    List SyncResult :=
  let to_run := sync_tasks.filter (fun t => t.proceed)
  to_run.map f

/-- The completion-order model of `ThreadPoolExecutor.map`: each submitted
task has a result slot at its input index; workers complete in an
arbitrary order (`completion` lists the indices in the order their results
become available) and each completion fills its own slot. -/
def fillSlots (results : ℕ → SyncResult) :
    List ℕ → (ℕ → Option SyncResult) → (ℕ → Option SyncResult)
  | [], slots => slots
  | j :: rest, slots =>
    fillSlots results rest (fun i => if i = j then some (results j) else slots i)

/-- Reading the result iterator of `executor.map` after the workers
completed in order `completion`: the slots in input-index order. -/
def mapWithCompletion (f : Task → SyncResult) (to_run : List Task)
    (completion : List ℕ) : List (Option SyncResult) :=
  let slots := fillSlots
    (fun i => f (to_run.getD i { dev := "", prod := "", tag_name := none, proceed := false }))
    completion (fun _ => none)
  (List.range to_run.length).map slots

/-- `log_summary_and_exit` from `Auto_ALM.py` (lines 494-501): logs one
line per result dict, in the order of the results list; when no syncs
were executed it logs only that fact. -/
def log_summary_and_exit (results : List SyncResult) : List String :=
  if results.isEmpty then ["No syncs were executed."]
  else results.map fun r => r.dev ++ "->" ++ r.prod ++ ":" ++ r.status

end AutoALM

namespace Alm7

/-- Result record of `estimate_post_sync_size` in `Alm7.py` (lines 282-290):
`{"current": used, "alloc": alloc, "revision_size": rev_size,
"after": after, "pct_after": pct_after}`. -/
structure SizeInfo where
  current : ℕ
  alloc : ℕ
  revision_size : ℕ
  after : ℕ
  pct_after : ℚ
  deriving Repr, DecidableEq

/-- `estimate_post_sync_size` from `Alm7.py` (lines 282-290).  `usage` is
the `(used, alloc)` pair of `get_workspace_usage` (total, `(0,0)` when the
workspace id is missing or the fetch fails).  `fileSize` models
`os.path.getsize` on an existing readable path (`none` when
`revision_file_path` is falsy or the path does not exist, leaving
`rev_size = 0`).  `pct_after = after/alloc if alloc else 0`. -/
def estimate_post_sync_size (used alloc : ℕ) (fileSize : Option ℕ) : SizeInfo :=
  let rev_size : ℕ := fileSize.getD 0
  let after : ℕ := used + rev_size
  let pct_after : ℚ := if alloc ≠ 0 then (after : ℚ) / (alloc : ℚ) else 0
  { current := used, alloc := alloc, revision_size := rev_size,
    after := after, pct_after := pct_after }

end Alm7

namespace Classic

/-! Embedding of `53.py` (the classic-ALM variant): the fallback promotion
protocol, the "latest" revision selection and the bounded retry loops. -/

/-- Character-list version of Python's `sub in s` substring test. -/
def startsWithChars : List Char → List Char → Bool
  | _, [] => true
  | [], _ :: _ => false
  | c :: cs, d :: ds => c = d && startsWithChars cs ds

/-- `sub` occurs as a contiguous substring of the first argument. -/
def containsChars (sub : List Char) : List Char → Bool
  | [] => sub.isEmpty
  | c :: t => startsWithChars (c :: t) sub || containsChars sub t

/-- Python's `sub in s`, with the haystack given as characters. -/
def strContains (hay : List Char) (sub : String) : Bool :=
  containsChars sub.data hay

/-- ASCII lowering of one character, as Python's `str.lower()` acts on
the ASCII action names of the sources. -/
def lowerChar (c : Char) : Char :=
  if 'A' ≤ c ∧ c ≤ 'Z' then Char.ofNat (c.toNat + 32) else c

/-- `s.lower()` as a character list. -/
def lowerStr (s : String) : List Char :=
  s.data.map lowerChar

/-- A model action as returned by `list_model_actions` (`53.py` lines
192-202): a dict with `id` and `name`. -/
structure Action where
  id : String
  name : String
  deriving Repr, DecidableEq

/-- The heuristic of `promote_revision_classic` (`53.py` lines 260-264):
`name = (act.get("name") or "").lower()` and the test
`"alm" in name or "promote" in name or "revision" in name`. -/
def nameMatches (act : Action) : Bool :=
  let n := lowerStr act.name
  strContains n "alm" || strContains n "promote" || strContains n "revision"

/-- Candidate selection of `promote_revision_classic` (`53.py` lines
261-269): one pass over the action list taking the first action whose
name matches any of the three substrings; when none matches and the list
is non-empty, the first action; otherwise no candidate (line 272 then
raises the no-promotion-path error). -/
def selectCandidate (actions : List Action) : Option Action :=
  match actions.find? nameMatches with
  | some a => some a
  | none => actions.head?

/-- Modelled from the spec's words (§4.4, fallback step (b)) for
comparison with `selectCandidate` only: tiered preference — first an
operation whose name contains "alm", else one containing "promote", else
one containing "revision", else the first listed operation. -/
def tieredSelect (actions : List Action) : Option Action :=
  match actions.find? (fun a => strContains (lowerStr a.name) "alm") with
  | some a => some a
  | none =>
    match actions.find? (fun a => strContains (lowerStr a.name) "promote") with
    | some a => some a
    | none =>
      match actions.find? (fun a => strContains (lowerStr a.name) "revision") with
      | some a => some a
      | none => actions.head?

/-- Outcome of the primary revision-promote request (`53.py` lines
236-250): an HTTP response of any status, or a raised exception
(`requests.HTTPError` or any transport error), both of which make the
code proceed to the fallback. -/
inductive PrimaryOutcome where
  | resp (status : ℕ) (body : String)
  | exn (msg : String)
  deriving Repr, DecidableEq

/-- `r.status_code in (200, 201, 202)` (line 238). -/
def is2xxAccepted (s : ℕ) : Bool :=
  s = 200 || s = 201 || s = 202

/-- Result of `promote_revision_classic`: the primary accepted the
request, or the fallback invoked an action task with its payload
`{"sourceModelId": dev, "revisionName": rev}`, or the fallback found no
action at all and raised
`RuntimeError("No actions available on PROD model to perform ALM promote")`
before invoking anything. -/
inductive PromoteResult where
  | revisionPromote (status : ℕ)
  | actionsTask (a : Action) (sourceModelId revisionName : String)
  | noPath (msg : String)
  deriving Repr, DecidableEq

/-- The fallback tail of `promote_revision_classic` (`53.py` lines
252-283), given the successfully listed actions of the PROD model: select
a candidate and start an action task with the same
sourceModelId/revisionName payload as the primary request, or raise the
no-promotion-path error when the list is empty. -/
def fallbackPromote (dev rev : String) (actions : List Action) : PromoteResult :=
  match selectCandidate actions with
  | some a => .actionsTask a dev rev
  | none => .noPath "No actions available on PROD model to perform ALM promote"

/-- `promote_revision_classic` (`53.py` lines 225-286), with the remote
behaviour supplied as data: the primary outcome and the PROD model's
action listing (the fallback's own listing failure, lines 256-258, is a
separate error path not modelled here).  A 2xx primary wins; any non-2xx
status or raised exception falls through to the fallback. -/
def promote_revision_classic (dev rev : String) (primary : PrimaryOutcome)
    (actions : List Action) : PromoteResult :=
  match primary with
  | .resp s _ =>
    if is2xxAccepted s then .revisionPromote s
    else fallbackPromote dev rev actions
  | .exn _ => fallbackPromote dev rev actions

/-- A revision tag dict as listed by `list_revision_tags` in `53.py`. -/
structure Rev where
  id : String
  name : String
  deriving Repr, DecidableEq

/-- The `"latest"` action of `53.py` `main` (lines 525-530):
`revs = list_revision_tags(...)`; an empty listing raises
`RuntimeError("No RTs found for 'latest' option")` (caught at line 538
into a "Preparation failed" result); otherwise `rt_name = revs[-1]` — the
LAST element of the listing order, with no timestamp comparison. -/
def latestClassic (revs : List Rev) : Except String String :=
  match revs.getLast? with
  | none => .error "No RTs found for 'latest' option"
  | some r => .ok r.name

/-- Choice `"2"` of `prompt_for_rt_option` (`53.py` lines 335-340) once a
listing is available: an empty listing re-prompts the user
(`continue`); otherwise `latest = revisions[-1].get("name")`. -/
inductive PromptStep where
  | chosen (action : String) (rev : Option String)
  | reprompt
  | skipPair
  deriving Repr, DecidableEq

def promptUseLatest (revisions : List Rev) : PromptStep :=
  match revisions.getLast? with
  | none => .reprompt
  | some r => .chosen "latest" (some r.name)

/-- `RT_RETRY = 2` (`53.py` line 44). -/
def RT_RETRY : ℕ := 2

/-- The bounded retry loop of `53.py` (`prompt_for_rt_option` lines
317-326 and `main` lines 508-516):
`attempts = 0; while attempts <= RT_RETRY: try: f(); break; except: attempts += 1`.
`f k` is the outcome of the k-th call (`none` = raised); `fuel` is the
number of loop iterations still permitted (`RT_RETRY + 1 - attempts`). -/
def retryIter {α : Type} (f : ℕ → Option α) : ℕ → ℕ → Option α
  | 0, _ => none
  | fuel + 1, attempts =>
    match f attempts with
    | some v => some v
    | none => retryIter f fuel (attempts + 1)

/-- Running the whole retry loop from `attempts = 0`. -/
def runWithRetry {α : Type} (f : ℕ → Option α) : Option α :=
  retryIter f (RT_RETRY + 1) 0

/-- A remote mock that fails its first `N` calls and succeeds with `v`
from call `N` on. -/
def failsThenSucceeds {α : Type} (N : ℕ) (v : α) : ℕ → Option α :=
  fun k => if k < N then none else some v

/-- Revision listing with retry in `prompt_for_rt_option` (`53.py` lines
317-333): when every attempt fails, the user is asked whether to choose
again; answering no returns the skip action for the pair. -/
inductive PromptListOutcome where
  | listed (revs : List Rev)
  | skipPair
  | chooseAgain
  deriving Repr, DecidableEq

def promptListRevisions (f : ℕ → Option (List Rev)) (retryAnswerYes : Bool) :
    PromptListOutcome :=
  match runWithRetry f with
  | some revs => .listed revs
  | none => if retryAnswerYes then .chooseAgain else .skipPair

/-- The create-RT preparation of `53.py` `main` (lines 506-523): bounded
retry around `create_revision_tag`; exhaustion raises
`RuntimeError("Failed to create RT after retries")`. -/
def prepareCreateRT (createCall : ℕ → Option String) : Except String String :=
  match runWithRetry createCall with
  | some created => .ok created
  | none => .error "Failed to create RT after retries"

/-- One row of the `results` list of `53.py` `main`. -/
structure ItemResult where
  index : ℕ
  status : String
  deriving Repr, DecidableEq

/-- The catch clause at `main` lines 538-541: any preparation error is
converted into a terminal `"Preparation failed: ..."` result row for the
item and the loop continues with the next item; a successful preparation
carries the selected revision name forward. -/
def itemAfterPreparation (index : ℕ) (prep : Except String String) :
    Except ItemResult String :=
  match prep with
  | .error e => .error { index := index, status := "Preparation failed: " ++ e }
  | .ok rt => .ok rt

end Classic

namespace AutoALM2

/-! Embedding of `discover_model_and_workspace_names` from `Auto_ALM2.py`
(lines 196-224).  `Alm7.py`'s `discover_model_metadata` (lines 145-160)
is the same algorithm minus the falsy-model-id guard; every property
proved below holds of it for the same reason. -/

/-- A model dict as listed by `get_models_in_workspace`. -/
structure Model where
  id : String
  name : String
  deriving Repr, DecidableEq

/-- A workspace dict as listed by `get_all_workspaces`, together with the
result of `get_models_in_workspace` on it (both listings are total in the
code: they return `[]` on failure). -/
structure Workspace where
  id : String
  name : String
  models : List Model
  deriving Repr, DecidableEq

/-- The per-model info record
`{"model_name": ..., "workspace_id": ..., "workspace_name": ...}`. -/
structure MInfo where
  model_name : String
  workspace_id : Option String
  workspace_name : String
  deriving Repr, DecidableEq

/-- Overwriting update of the Python dict `result` (later assignments to
the same key win). -/
def upd (d : String → Option MInfo) (k : String) (v : MInfo) :
    String → Option MInfo :=
  fun x => if x = k then some v else d x

/-- The inner loop over one workspace's models (lines 209-219): falsy
model ids are skipped (`if not mid: continue`); a model whose id is in
`model_id_list` writes its entry into the dict, with `or "(unknown)"`
fallbacks on the names. -/
def scanModels (mids : List String) (ws_id ws_name : String) :
    List Model → (String → Option MInfo) → (String → Option MInfo)
  | [], d => d
  | m :: rest, d =>
    if m.id = "" then scanModels mids ws_id ws_name rest d
    else if m.id ∈ mids then
      scanModels mids ws_id ws_name rest
        (upd d m.id
          { model_name := if m.name = "" then "(unknown)" else m.name,
            workspace_id := some ws_id,
            workspace_name := if ws_name = "" then "(unknown)" else ws_name })
    else scanModels mids ws_id ws_name rest d

/-- The outer loop over all workspaces (lines 203-219).  A falsy
workspace id is skipped (`if not ws_id: continue`); every other workspace
has its models enumerated (one `get_models_in_workspace` call),
unconditionally — there is no break once a model is found.  Besides the
dict, the embedding records the ids of the workspaces whose models were
enumerated, in scan order. -/
def scanWorkspaces (mids : List String) :
    List Workspace → (String → Option MInfo) × List String →
    (String → Option MInfo) × List String
  | [], acc => acc
  | ws :: rest, acc =>
    if ws.id = "" then scanWorkspaces mids rest acc
    else
      scanWorkspaces mids rest
        (scanModels mids ws.id ws.name ws.models acc.1, acc.2 ++ [ws.id])

/-- The placeholder entry written for every requested model id that no
workspace contained (lines 220-223):
`{"model_name": "(unknown)", "workspace_id": None, "workspace_name": "(unknown)"}`. -/
def sentinelInfo : MInfo :=
  { model_name := "(unknown)", workspace_id := none, workspace_name := "(unknown)" }

/-- The final fill loop (lines 221-223), element by element: any
requested id still missing from the dict is mapped to the placeholder. -/
def fillUnknown : List String → (String → Option MInfo) → String → Option MInfo
  | [], d => d
  | mid :: rest, d =>
    fillUnknown rest
      (match d mid with | some _ => d | none => upd d mid sentinelInfo)

/-- `discover_model_and_workspace_names` (`Auto_ALM2.py` lines 196-224):
returns the dict keyed by model id, paired with the trace of scanned
workspace ids. -/
def discover_model_and_workspace_names (workspaces : List Workspace)
    (mids : List String) : (String → Option MInfo) × List String :=
  let s := scanWorkspaces mids workspaces ((fun _ => none), [])
  (fillUnknown mids s.1, s.2)

end AutoALM2

section CapacityClaims

/-- Unfolding the percentage field of `estimate_post_sync_size`. -/
theorem pct_after_estimate (used alloc : ℕ) (fs : Option ℕ) :
    (AutoALM.estimate_post_sync_size used alloc fs).pct_after =
      if alloc > 0 then ((used + fs.getD 0 : ℕ) : ℚ) / (alloc : ℚ) else 0 := rfl

/-- The gate prompts exactly when the projected percentage exceeds 95%. -/
theorem gate_eq_prompt_iff (si : AutoALM.SizeInfo) :
    AutoALM.gate si = AutoALM.Gate.prompt ↔ si.pct_after > 95 / 100 := by
  by_cases h : si.pct_after > 95 / 100 <;>
    simp [AutoALM.gate, AutoALM.needsConfirmation, h]

/-- C1 counterexample: at `usedBytes = 2^40`, `allocatedBytes = 0`,
`estimatedDeltaBytes = 2^40`, the assessment computed before confirmation
does NOT classify the pair as Warn-requiring-a-human-look: `pct_after`
is 0, the gate takes the auto-proceed branch and `proceed` is set to
`True` with no prompt — the unknown-capacity target is auto-approved,
refuting the claim that it always requires a human look and is never
auto-approved as safe. -/
theorem C1_counterexample :
    AutoALM.gate (AutoALM.estimate_post_sync_size 1099511627776 0 (some 1099511627776))
        = AutoALM.Gate.autoProceed ∧
    AutoALM.proceedWithoutPrompt
        (AutoALM.estimate_post_sync_size 1099511627776 0 (some 1099511627776)) = true ∧
    (AutoALM.estimate_post_sync_size 1099511627776 0 (some 1099511627776)).pct_after = 0 := by
  refine ⟨?_, ?_, rfl⟩ <;>
  · simp [AutoALM.gate, AutoALM.proceedWithoutPrompt, AutoALM.needsConfirmation,
      pct_after_estimate]
    norm_num

/-- C1 (amended): for every usage snapshot and every size-delta outcome,
when `allocatedBytes == 0` the projected percentage is 0 and the capacity
gate classifies the pair into the auto-proceed branch — unknown capacity
is auto-approved without confirmation, never prompted and never
blocked. -/
theorem C1_zero_allocation_auto_proceeds (used : ℕ) (fs : Option ℕ) :
    (AutoALM.estimate_post_sync_size used 0 fs).pct_after = 0 ∧
    AutoALM.gate (AutoALM.estimate_post_sync_size used 0 fs) = AutoALM.Gate.autoProceed ∧
    AutoALM.proceedWithoutPrompt (AutoALM.estimate_post_sync_size used 0 fs) = true := by
  have hpct : (AutoALM.estimate_post_sync_size used 0 fs).pct_after = 0 := by
    rw [pct_after_estimate]; simp
  refine ⟨hpct, ?_, ?_⟩ <;>
  · simp [AutoALM.gate, AutoALM.proceedWithoutPrompt, AutoALM.needsConfirmation, hpct]
    norm_num

/-- C9: the capacity assessment is monotonic in the delta estimate — for
fixed `usedBytes` and `allocatedBytes`, a larger delta never decreases
`pct_after`, and the gate classification never moves from prompt
(elevated risk) back to auto-proceed (the safe end). -/
theorem C9_capacity_monotone (used alloc d₁ d₂ : ℕ) (h : d₁ ≤ d₂) :
    (AutoALM.estimate_post_sync_size used alloc (some d₁)).pct_after ≤
      (AutoALM.estimate_post_sync_size used alloc (some d₂)).pct_after ∧
    (AutoALM.gate (AutoALM.estimate_post_sync_size used alloc (some d₁))
        = AutoALM.Gate.prompt →
      AutoALM.gate (AutoALM.estimate_post_sync_size used alloc (some d₂))
        = AutoALM.Gate.prompt) := by
  have hpct : (AutoALM.estimate_post_sync_size used alloc (some d₁)).pct_after ≤
      (AutoALM.estimate_post_sync_size used alloc (some d₂)).pct_after := by
    rw [pct_after_estimate, pct_after_estimate]
    by_cases ha : alloc > 0
    · simp only [if_pos ha, Option.getD_some]
      gcongr
    · simp [ha]
  refine ⟨hpct, fun hg => ?_⟩
  rw [gate_eq_prompt_iff] at hg ⊢
  exact lt_of_lt_of_le hg hpct

/-- Witness for C9 at `used = 900`, `alloc = 1000`, deltas `40 ≤ 80`. -/
theorem C9_capacity_monotone_witness :
    (40 : ℕ) ≤ 80 ∧
    (AutoALM.estimate_post_sync_size 900 1000 (some 40)).pct_after ≤
      (AutoALM.estimate_post_sync_size 900 1000 (some 80)).pct_after :=
  ⟨by decide, (C9_capacity_monotone 900 1000 40 80 (by decide)).1⟩

/-- C10: the size-estimation step is total — every file-size outcome
(including a failed `getsize` on an empty/absent path, modelled `none`)
yields a complete estimate record with `revision_size = 0`, and the
percentage is guarded: it is 0 when the allocation is 0 and satisfies
`pct_after * alloc = after` when the allocation is strictly positive, so
no division by zero ever occurs.  Both cited variants (`Auto_ALM.py` and
`Alm7.py`) are covered. -/
theorem C10_estimate_total (used alloc : ℕ) (fs : Option ℕ) :
    ((fs = none → (AutoALM.estimate_post_sync_size used alloc fs).revision_size = 0) ∧
     (AutoALM.estimate_post_sync_size used alloc fs).after
        = used + (AutoALM.estimate_post_sync_size used alloc fs).revision_size ∧
     (alloc = 0 → (AutoALM.estimate_post_sync_size used alloc fs).pct_after = 0) ∧
     (0 < alloc → (AutoALM.estimate_post_sync_size used alloc fs).pct_after * (alloc : ℚ)
        = ((AutoALM.estimate_post_sync_size used alloc fs).after : ℚ))) ∧
    ((fs = none → (Alm7.estimate_post_sync_size used alloc fs).revision_size = 0) ∧
     (Alm7.estimate_post_sync_size used alloc fs).after
        = used + (Alm7.estimate_post_sync_size used alloc fs).revision_size ∧
     (alloc = 0 → (Alm7.estimate_post_sync_size used alloc fs).pct_after = 0) ∧
     (0 < alloc → (Alm7.estimate_post_sync_size used alloc fs).pct_after * (alloc : ℚ)
        = ((Alm7.estimate_post_sync_size used alloc fs).after : ℚ))) := by
  have hA : (alloc : ℚ) ≠ 0 → ∀ x : ℚ, x / (alloc : ℚ) * (alloc : ℚ) = x :=
    fun hne x => div_mul_cancel₀ x hne
  refine ⟨⟨?_, rfl, ?_, ?_⟩, ⟨?_, rfl, ?_, ?_⟩⟩
  · intro hfs; subst hfs; rfl
  · intro h0; subst h0; rfl
  · intro hpos
    have hne : (alloc : ℚ) ≠ 0 := by positivity
    show (if alloc > 0 then ((used + fs.getD 0 : ℕ) : ℚ) / (alloc : ℚ) else 0) * (alloc : ℚ) = _
    rw [if_pos hpos, hA hne]
    rfl
  · intro hfs; subst hfs; rfl
  · intro h0; subst h0; rfl
  · intro hpos
    have hne : (alloc : ℚ) ≠ 0 := by positivity
    have hne' : alloc ≠ 0 := Nat.pos_iff_ne_zero.mp hpos
    show (if alloc ≠ 0 then ((used + fs.getD 0 : ℕ) : ℚ) / (alloc : ℚ) else 0) * (alloc : ℚ) = _
    rw [if_pos hne', hA hne]
    rfl

/-- Witness for C10 at `fs = none`: `alloc = 0` gives percentage 0, and
`alloc = 1000` satisfies the guarded-division identity. -/
theorem C10_estimate_total_witness :
    (AutoALM.estimate_post_sync_size 7 0 none).pct_after = 0 ∧
    (Alm7.estimate_post_sync_size 7 0 none).pct_after = 0 ∧
    (AutoALM.estimate_post_sync_size 900 1000 none).pct_after * (1000 : ℚ)
      = ((AutoALM.estimate_post_sync_size 900 1000 none).after : ℚ) :=
  ⟨(C10_estimate_total 7 0 none).1.2.2.1 rfl,
   (C10_estimate_total 7 0 none).2.2.2.1 rfl,
   (C10_estimate_total 900 1000 none).1.2.2.2 (by norm_num)⟩

end CapacityClaims

section SummaryClaims

/-- After the workers complete in order `completion`, slot `i` holds the
result of task `i` exactly when `i` has completed. -/
theorem fillSlots_apply (results : ℕ → AutoALM.SyncResult) (completion : List ℕ)
    (slots : ℕ → Option AutoALM.SyncResult) (i : ℕ) :
    AutoALM.fillSlots results completion slots i =
      if i ∈ completion then some (results i) else slots i := by
  induction completion generalizing slots with
  | nil => simp [AutoALM.fillSlots]
  | cons j rest ih =>
    rw [AutoALM.fillSlots, ih]
    by_cases hij : i = j
    · subst hij
      by_cases hmem : i ∈ rest <;> simp [hmem]
    · by_cases hmem : i ∈ rest <;> simp [hmem, hij, List.mem_cons]

/-- Once every submitted index has completed, the iterator of
`executor.map` yields exactly the per-task results in input order —
independent of the completion order. -/
theorem mapWithCompletion_eq (f : AutoALM.Task → AutoALM.SyncResult)
    (to_run : List AutoALM.Task) (completion : List ℕ)
    (hall : ∀ i, i < to_run.length → i ∈ completion) :
    AutoALM.mapWithCompletion f to_run completion = (to_run.map f).map some := by
  unfold AutoALM.mapWithCompletion
  apply List.ext_getElem
  · simp
  · intro i h1 h2
    simp only [List.getElem_map, List.getElem_range]
    rw [fillSlots_apply]
    have hlen : i < to_run.length := by simpa using h1
    rw [if_pos (hall i hlen)]
    congr 1
    simp [List.getD_eq_getElem?_getD, List.getElem?_eq_getElem hlen]

/-- C2 counterexample: with two configured pairs of which the first was
rejected (`proceed = False`), the run summary has a single entry and the
rejected pair `devA -> prodA` appears nowhere in it — refuting the claim
that the summary contains exactly one entry for every configured pair
including skipped or rejected ones. -/
theorem C2_counterexample :
    (AutoALM.parallel_sync_executor
        (fun t => AutoALM.sync_revision_to_prod t (.resp 200 "ok"))
        [{ dev := "devA", prod := "prodA", tag_name := none, proceed := false },
         { dev := "devB", prod := "prodB", tag_name := some "T1", proceed := true }]).length
      = 1 ∧
    (∀ r ∈ AutoALM.parallel_sync_executor
        (fun t => AutoALM.sync_revision_to_prod t (.resp 200 "ok"))
        [{ dev := "devA", prod := "prodA", tag_name := none, proceed := false },
         { dev := "devB", prod := "prodB", tag_name := some "T1", proceed := true }],
      r.dev ≠ "devA") ∧
    (AutoALM.log_summary_and_exit (AutoALM.parallel_sync_executor
        (fun t => AutoALM.sync_revision_to_prod t (.resp 200 "ok"))
        [{ dev := "devA", prod := "prodA", tag_name := none, proceed := false },
         { dev := "devB", prod := "prodB", tag_name := some "T1", proceed := true }])).length
      = 1 := by
  refine ⟨rfl, ?_, rfl⟩
  decide

/-- C2 (amended): the run summary contains exactly one entry per
CONFIRMED (`proceed = True`) pair, in original configuration order and
independent of the workers' completion order; pairs that were skipped or
rejected are filtered out before submission and are absent from the
summary. -/
theorem C2_summary_confirmed_pairs_in_order (outs : AutoALM.Task → AutoALM.RemoteOutcome)
    (sync_tasks : List AutoALM.Task) (completion : List ℕ)
    (hperm : completion.Perm
      (List.range (sync_tasks.filter (fun t => t.proceed)).length)) :
    AutoALM.mapWithCompletion (fun t => AutoALM.sync_revision_to_prod t (outs t))
        (sync_tasks.filter (fun t => t.proceed)) completion
      = (AutoALM.parallel_sync_executor
          (fun t => AutoALM.sync_revision_to_prod t (outs t)) sync_tasks).map some ∧
    (AutoALM.parallel_sync_executor
        (fun t => AutoALM.sync_revision_to_prod t (outs t)) sync_tasks).map
          (fun r => (r.dev, r.prod))
      = (sync_tasks.filter (fun t => t.proceed)).map (fun t => (t.dev, t.prod)) := by
  constructor
  · rw [mapWithCompletion_eq]
    · rfl
    · intro i hi
      rw [hperm.mem_iff]
      simpa using hi
  · show ((sync_tasks.filter (fun t => t.proceed)).map _).map _ = _
    rw [List.map_map]
    apply List.map_congr_left
    intro t _
    rcases hout : outs t with ⟨s, body⟩ | e
    · by_cases h2 : s = 200 ∨ s = 201 ∨ s = 202 <;>
        simp [AutoALM.sync_revision_to_prod, hout, h2]
    · simp [AutoALM.sync_revision_to_prod, hout]

/-- Witness for C2 (amended): one skipped and two confirmed pairs, the
workers completing in reversed order `[1, 0]`. -/
theorem C2_summary_witness :
    ([1, 0] : List ℕ).Perm (List.range
      (([{ dev := "dA", prod := "pA", tag_name := none, proceed := false },
          { dev := "dB", prod := "pB", tag_name := some "T", proceed := true },
          { dev := "dC", prod := "pC", tag_name := some "U", proceed := true }]
            : List AutoALM.Task).filter (fun t => t.proceed)).length) ∧
    (AutoALM.parallel_sync_executor
        (fun t => AutoALM.sync_revision_to_prod t (.resp 201 "ok"))
        [{ dev := "dA", prod := "pA", tag_name := none, proceed := false },
         { dev := "dB", prod := "pB", tag_name := some "T", proceed := true },
         { dev := "dC", prod := "pC", tag_name := some "U", proceed := true }]).map
          (fun r => (r.dev, r.prod))
      = [("dB", "pB"), ("dC", "pC")] := by
  refine ⟨by decide, ?_⟩
  have h := (C2_summary_confirmed_pairs_in_order
    (fun _ => AutoALM.RemoteOutcome.resp 201 "ok")
    [{ dev := "dA", prod := "pA", tag_name := none, proceed := false },
     { dev := "dB", prod := "pB", tag_name := some "T", proceed := true },
     { dev := "dC", prod := "pC", tag_name := some "U", proceed := true }]
    [1, 0] (by decide)).2
  rw [h]
  decide

end SummaryClaims

section ErrorConversionClaims

/-- C5: the promotion call is total over remote behaviours — a
well-formed negative response (any non-2xx status) yields a result record
with `status = "failed"` rather than an exception; a raised transport
error is caught at the item boundary and converted to
`status = "error"`; every outcome yields one of the three terminal
statuses; and the per-pair plan-collection loop converts any exception
raised during a pair's interaction into a skip entry, so the plan keeps
exactly one entry per configured pair, in order — no pair's failure
escapes into the orchestrator or drops a sibling pair. -/
theorem C5_per_item_errors_converted :
    (∀ (t : AutoALM.Task) (s : ℕ) (body : String),
        ¬(s = 200 ∨ s = 201 ∨ s = 202) →
        AutoALM.sync_revision_to_prod t (.resp s body)
          = { dev := t.dev, prod := t.prod, status := "failed", detail := body }) ∧
    (∀ (t : AutoALM.Task) (e : String),
        AutoALM.sync_revision_to_prod t (.transportErr e)
          = { dev := t.dev, prod := t.prod, status := "error", detail := e }) ∧
    (∀ (t : AutoALM.Task) (out : AutoALM.RemoteOutcome),
        (AutoALM.sync_revision_to_prod t out).status = "started" ∨
        (AutoALM.sync_revision_to_prod t out).status = "failed" ∨
        (AutoALM.sync_revision_to_prod t out).status = "error") ∧
    (∀ (pairs : List AutoALM.Pair) (interact : ℕ → AutoALM.Pair → AutoALM.InteractOutcome),
        (AutoALM.collectPlan pairs interact).map (fun t => (t.dev, t.prod))
          = pairs.map (fun p => (p.dev, p.prod))) := by
  refine ⟨?_, ?_, ?_, ?_⟩
  · intro t s body h
    simp [AutoALM.sync_revision_to_prod, h]
  · intro t e
    rfl
  · intro t out
    rcases out with ⟨s, body⟩ | e
    · by_cases h2 : s = 200 ∨ s = 201 ∨ s = 202 <;>
        simp [AutoALM.sync_revision_to_prod, h2]
    · right; right; rfl
  · intro pairs interact
    unfold AutoALM.collectPlan
    rw [List.map_map]
    have hcomp : ∀ ip : ℕ × AutoALM.Pair,
        ((fun t : AutoALM.Task => (t.dev, t.prod)) ∘ fun ip : ℕ × AutoALM.Pair =>
          (match interact ip.1 ip.2 with
            | .ok tag proceed =>
              { dev := ip.2.dev, prod := ip.2.prod, tag_name := tag, proceed := proceed }
            | .exn _ =>
              { dev := ip.2.dev, prod := ip.2.prod, tag_name := none, proceed := false }
            : AutoALM.Task)) ip
          = (ip.2.dev, ip.2.prod) := by
      intro ip
      rcases h : interact ip.1 ip.2 <;> simp [Function.comp, h]
    rw [List.map_congr_left (fun ip _ => hcomp ip)]
    have : (fun ip : ℕ × AutoALM.Pair => (ip.2.dev, ip.2.prod))
        = (fun p : AutoALM.Pair => (p.dev, p.prod)) ∘ Prod.snd := rfl
    rw [this, ← List.map_map, List.enum_map_snd]

/-- Witness for C5: a 503 response is converted to a `"failed"` record,
and a two-pair plan in which the second pair's interaction raises still
carries both pairs, in order. -/
theorem C5_per_item_errors_converted_witness :
    AutoALM.sync_revision_to_prod
        { dev := "d", prod := "p", tag_name := some "t", proceed := true }
        (.resp 503 "oops")
      = { dev := "d", prod := "p", status := "failed", detail := "oops" } ∧
    (AutoALM.collectPlan
        [{ dev := "d1", prod := "p1" }, { dev := "d2", prod := "p2" }]
        (fun i _ => if i = 0 then .ok (some "T") true else .exn "boom")).map
          (fun t => (t.dev, t.prod))
      = [("d1", "p1"), ("d2", "p2")] :=
  ⟨C5_per_item_errors_converted.1
      { dev := "d", prod := "p", tag_name := some "t", proceed := true } 503 "oops"
      (by decide),
   by
    rw [C5_per_item_errors_converted.2.2.2]
    rfl⟩

end ErrorConversionClaims

section RetryClaims

/-- The retry loop over a mock that fails its first `N` calls: it
succeeds exactly when some permitted attempt index reaches `N`. -/
theorem retryIter_failsThenSucceeds {α : Type} (N : ℕ) (v : α) :
    ∀ (fuel a : ℕ),
      Classic.retryIter (Classic.failsThenSucceeds N v) fuel a =
        if 0 < fuel ∧ N < a + fuel then some v else none := by
  intro fuel
  induction fuel with
  | zero => intro a; simp [Classic.retryIter]
  | succ fuel ih =>
    intro a
    rw [Classic.retryIter]
    by_cases ha : a < N
    · have hfa : Classic.failsThenSucceeds N v a = none := by
        simp [Classic.failsThenSucceeds, ha]
      rw [hfa, ih (a + 1)]
      by_cases h0 : 0 < fuel
      · have : (0 < fuel ∧ N < a + 1 + fuel) ↔ (0 < fuel + 1 ∧ N < a + (fuel + 1)) := by
          omega
        simp only [this]
      · have hf0 : fuel = 0 := by omega
        subst hf0
        rw [if_neg (by omega), if_neg (by omega)]
    · have hfa : Classic.failsThenSucceeds N v a = some v := by
        simp [Classic.failsThenSucceeds, ha]
      rw [hfa]
      have : 0 < fuel + 1 ∧ N < a + (fuel + 1) := by omega
      simp [this]

/-- The whole loop (`attempts` from 0, bound `RT_RETRY`) succeeds
exactly when the mock fails at most `RT_RETRY` times. -/
theorem runWithRetry_failsThenSucceeds {α : Type} (N : ℕ) (v : α) :
    Classic.runWithRetry (Classic.failsThenSucceeds N v)
      = if N ≤ Classic.RT_RETRY then some v else none := by
  rw [Classic.runWithRetry, retryIter_failsThenSucceeds]
  have h1 : (0 < Classic.RT_RETRY + 1 ∧ N < 0 + (Classic.RT_RETRY + 1))
      ↔ N ≤ Classic.RT_RETRY := by
    simp [Classic.RT_RETRY]
    omega
  simp only [h1]

/-- C6: a revision-catalog mock that fails `N` times and then succeeds
reaches a successful revision selection when `N ≤ RT_RETRY` (the listing
is returned; the created tag name is carried forward), while `N > RT_RETRY`
ends the item in a terminal skip-like state — the listing prompt returns
the skip action, and the create path yields the caught
"Preparation failed" result row — rather than an uncaught exception. -/
theorem C6_bounded_retry (N : ℕ) (revs : List Classic.Rev) (created : String)
    (idx : ℕ) :
    (N ≤ Classic.RT_RETRY →
      Classic.promptListRevisions (Classic.failsThenSucceeds N revs) false
          = .listed revs ∧
      Classic.itemAfterPreparation idx
          (Classic.prepareCreateRT (Classic.failsThenSucceeds N created))
        = .ok created) ∧
    (Classic.RT_RETRY < N →
      Classic.promptListRevisions (Classic.failsThenSucceeds N revs) false
          = .skipPair ∧
      Classic.itemAfterPreparation idx
          (Classic.prepareCreateRT (Classic.failsThenSucceeds N created))
        = .error { index := idx,
                   status := "Preparation failed: Failed to create RT after retries" }) := by
  constructor
  · intro hle
    constructor
    · rw [Classic.promptListRevisions, runWithRetry_failsThenSucceeds, if_pos hle]
    · rw [Classic.prepareCreateRT, runWithRetry_failsThenSucceeds, if_pos hle]
      rfl
  · intro hgt
    have hnle : ¬ N ≤ Classic.RT_RETRY := by omega
    constructor
    · rw [Classic.promptListRevisions, runWithRetry_failsThenSucceeds, if_neg hnle]
      rfl
    · rw [Classic.prepareCreateRT, runWithRetry_failsThenSucceeds, if_neg hnle]
      rfl

/-- Witness for C6: `N = 2` (the bound) still succeeds; `N = 3` ends in
the "Preparation failed" row. -/
theorem C6_bounded_retry_witness :
    (2 ≤ Classic.RT_RETRY ∧
      Classic.itemAfterPreparation 1
          (Classic.prepareCreateRT (Classic.failsThenSucceeds 2 "RT_OK"))
        = .ok "RT_OK") ∧
    (Classic.RT_RETRY < 3 ∧
      Classic.itemAfterPreparation 1
          (Classic.prepareCreateRT (Classic.failsThenSucceeds 3 "RT_OK"))
        = .error { index := 1,
                   status := "Preparation failed: Failed to create RT after retries" }) :=
  ⟨⟨by decide, ((C6_bounded_retry 2 [] "RT_OK" 1).1 (by decide)).2⟩,
   ⟨by decide, ((C6_bounded_retry 3 [] "RT_OK" 1).2 (by decide)).2⟩⟩

end RetryClaims

section FallbackClaims

/-- A successful `find?` returns the first satisfying element: the list
splits around it with every earlier element failing the predicate. -/
theorem find?_layout {α : Type} (p : α → Bool) :
    ∀ (l : List α) (a : α), l.find? p = some a →
      p a = true ∧ ∃ pre post, l = pre ++ a :: post ∧ ∀ b ∈ pre, p b = false := by
  intro l
  induction l with
  | nil => intro a h; simp [List.find?] at h
  | cons x t ih =>
    intro a h
    by_cases hx : p x
    · rw [List.find?_cons_of_pos _ hx] at h
      obtain rfl : x = a := by injection h
      exact ⟨hx, [], t, rfl, by simp⟩
    · rw [List.find?_cons_of_neg _ (by simpa using hx)] at h
      obtain ⟨hpa, pre, post, rfl, hpre⟩ := ih a h
      refine ⟨hpa, x :: pre, post, rfl, ?_⟩
      intro b hb
      rcases List.mem_cons.mp hb with rfl | hb'
      · simpa using hx
      · exact hpre b hb'

/-- C3 counterexample: on the action list
`["Do Promote", "ALM Sync Task"]` the code selects `"Do Promote"` (the
first action matching ANY of the three substrings, in listing order),
although an operation containing "alm" exists — the tiered-preference
selection the claim describes would pick `"ALM Sync Task"` instead.  The
selection is a single pass, not tiered. -/
theorem C3_counterexample :
    Classic.selectCandidate
        [{ id := "a1", name := "Do Promote" }, { id := "a2", name := "ALM Sync Task" }]
      = some { id := "a1", name := "Do Promote" } ∧
    Classic.tieredSelect
        [{ id := "a1", name := "Do Promote" }, { id := "a2", name := "ALM Sync Task" }]
      = some { id := "a2", name := "ALM Sync Task" } ∧
    Classic.strContains (Classic.lowerStr "ALM Sync Task") "alm" = true := by
  refine ⟨by decide, by decide, by decide⟩

/-- C3 (amended): when the primary promotion request returns a non-2xx
status or raises, the fallback selects the FIRST operation in listing
order whose lowercased name contains any of "alm", "promote" or
"revision" (one pass — no tiered preference among the three substrings);
when no name matches it takes the first listed operation; the selected
operation is invoked with the same sourceModelId/revisionName payload as
the primary request; and when the operation list is empty the promotion
fails with the no-promotion-path error without invoking anything. -/
theorem C3_fallback_selection (dev rev : String) (actions : List Classic.Action) :
    (Classic.selectCandidate actions = none ↔ actions = []) ∧
    (∀ (s : ℕ) (body e : String), Classic.is2xxAccepted s = false →
      Classic.promote_revision_classic dev rev (.resp s body) actions
          = Classic.fallbackPromote dev rev actions ∧
      Classic.promote_revision_classic dev rev (.exn e) actions
          = Classic.fallbackPromote dev rev actions) ∧
    (Classic.fallbackPromote dev rev []
      = .noPath "No actions available on PROD model to perform ALM promote") ∧
    (∀ a, Classic.selectCandidate actions = some a →
      ((Classic.nameMatches a = true ∧
        ∃ pre post, actions = pre ++ a :: post ∧
          ∀ b ∈ pre, Classic.nameMatches b = false) ∨
       ((∀ b ∈ actions, Classic.nameMatches b = false) ∧ actions.head? = some a)) ∧
      Classic.fallbackPromote dev rev actions = .actionsTask a dev rev) := by
  refine ⟨?_, ?_, rfl, ?_⟩
  · constructor
    · intro h
      rw [Classic.selectCandidate] at h
      cases hf : actions.find? Classic.nameMatches with
      | some a => rw [hf] at h; exact absurd h (by simp)
      | none =>
        rw [hf] at h
        cases actions with
        | nil => rfl
        | cons x t => exact absurd h (by simp)
    · intro h; subst h; rfl
  · intro s body e hs
    constructor
    · rw [Classic.promote_revision_classic, if_neg (by simpa using hs)]
    · rfl
  · intro a h
    constructor
    · rw [Classic.selectCandidate] at h
      cases hf : actions.find? Classic.nameMatches with
      | some b =>
        rw [hf] at h
        have hba : b = a := by injection h
        subst hba
        exact Or.inl (find?_layout Classic.nameMatches actions b hf)
      | none =>
        rw [hf] at h
        refine Or.inr ⟨?_, h⟩
        intro b hb
        have := List.find?_eq_none.mp hf b hb
        simpa using this
    · rw [Classic.fallbackPromote, h]

/-- Witness for C3 (amended): a 503 primary falls back; on the listing
`["Export A", "ALM Sync Task", "Import B"]` the selected candidate is
`"ALM Sync Task"`, invoked with the original payload. -/
theorem C3_fallback_selection_witness :
    Classic.is2xxAccepted 503 = false ∧
    Classic.promote_revision_classic "devM" "RT1" (.resp 503 "unavailable")
        [{ id := "x1", name := "Export A" }, { id := "x2", name := "ALM Sync Task" },
         { id := "x3", name := "Import B" }]
      = Classic.fallbackPromote "devM" "RT1"
        [{ id := "x1", name := "Export A" }, { id := "x2", name := "ALM Sync Task" },
         { id := "x3", name := "Import B" }] ∧
    Classic.fallbackPromote "devM" "RT1"
        [{ id := "x1", name := "Export A" }, { id := "x2", name := "ALM Sync Task" },
         { id := "x3", name := "Import B" }]
      = .actionsTask { id := "x2", name := "ALM Sync Task" } "devM" "RT1" :=
  ⟨rfl,
   ((C3_fallback_selection "devM" "RT1"
      [{ id := "x1", name := "Export A" }, { id := "x2", name := "ALM Sync Task" },
       { id := "x3", name := "Import B" }]).2.1 503 "unavailable" "" rfl).1,
   ((C3_fallback_selection "devM" "RT1"
      [{ id := "x1", name := "Export A" }, { id := "x2", name := "ALM Sync Task" },
       { id := "x3", name := "Import B" }]).2.2.2
      { id := "x2", name := "ALM Sync Task" } (by decide)).2⟩

end FallbackClaims

section LatestClaims

/-- C4 counterexample: on the two-element listing
`[TagFirst, TagLast]`, the `"use latest"` selection of `Auto_ALM.py`
(`ask_revision_choice_for_pair`, choice "1") returns the FIRST element
`TagFirst`, not the last — while the `53.py` variant returns `TagLast` —
so the claim that the 'use latest' selection always returns the last
element of the listing order fails at the cited `Auto_ALM.py` site. -/
theorem C4_counterexample :
    AutoALM.chooseImmediateLatest
        [{ id := "r1", name := "TagFirst" }, { id := "r2", name := "TagLast" }]
      = { choice := "1", tag_name := some "TagFirst" } ∧
    Classic.latestClassic
        [{ id := "r1", name := "TagFirst" }, { id := "r2", name := "TagLast" }]
      = .ok "TagLast" ∧
    ("TagFirst" : String) ≠ "TagLast" := by
  refine ⟨by decide, rfl, by decide⟩

/-- C4 (amended): the `53.py` variant's `latest` selection returns the
last element of the listing order (with no timestamp comparison) and
fails with the empty-listing error on an empty listing — both in `main`'s
execution phase and in the interactive prompt, which re-prompts on empty;
the `Auto_ALM.py` variant's 'immediate/latest' option instead returns the
FIRST listed tag, and on an empty listing switches the choice to
create-new rather than failing. -/
theorem C4_latest_selection (revs : List Classic.Rev) (tags : List AutoALM.Tag) :
    (revs ≠ [] → ∃ r, revs.getLast? = some r ∧
      Classic.latestClassic revs = .ok r.name ∧
      Classic.promptUseLatest revs = .chosen "latest" (some r.name)) ∧
    (revs = [] →
      Classic.latestClassic revs = .error "No RTs found for 'latest' option" ∧
      Classic.promptUseLatest revs = .reprompt) ∧
    (∀ t ts, tags = t :: ts →
      AutoALM.chooseImmediateLatest tags
        = { choice := "1", tag_name := some (AutoALM.tagLabel t) }) ∧
    (tags = [] →
      AutoALM.chooseImmediateLatest tags = { choice := "2", tag_name := none }) := by
  refine ⟨?_, ?_, ?_, ?_⟩
  · intro hne
    obtain ⟨r, hr⟩ := Option.ne_none_iff_exists'.mp
      (mt List.getLast?_eq_none_iff.mp hne)
    refine ⟨r, hr, ?_, ?_⟩
    · rw [Classic.latestClassic, hr]
    · rw [Classic.promptUseLatest, hr]
  · intro h; subst h; exact ⟨rfl, rfl⟩
  · intro t ts h; subst h; rfl
  · intro h; subst h; rfl

/-- Witness for C4 (amended) on concrete listings. -/
theorem C4_latest_selection_witness :
    (∃ r : Classic.Rev,
      ([{ id := "r1", name := "A" }, { id := "r2", name := "B" }]
        : List Classic.Rev).getLast? = some r ∧
      Classic.latestClassic [{ id := "r1", name := "A" }, { id := "r2", name := "B" }]
        = .ok r.name ∧
      Classic.promptUseLatest [{ id := "r1", name := "A" }, { id := "r2", name := "B" }]
        = .chosen "latest" (some r.name)) ∧
    AutoALM.chooseImmediateLatest
        [{ id := "r1", name := "A" }, { id := "r2", name := "B" }]
      = { choice := "1", tag_name := some (AutoALM.tagLabel { id := "r1", name := "A" }) } :=
  ⟨(C4_latest_selection [{ id := "r1", name := "A" }, { id := "r2", name := "B" }] []).1
      (by decide),
   (C4_latest_selection [] [{ id := "r1", name := "A" }, { id := "r2", name := "B" }]).2.2.1
      { id := "r1", name := "A" } [{ id := "r2", name := "B" }] rfl⟩

end LatestClaims

section ScanClaims

/-- The final fill loop at one key: an existing entry is kept, a missing
requested key becomes the placeholder, anything else stays missing. -/
theorem fillUnknown_apply (mids : List String) :
    ∀ (d : String → Option AutoALM2.MInfo) (x : String),
      AutoALM2.fillUnknown mids d x =
        match d x with
        | some v => some v
        | none => if x ∈ mids then some AutoALM2.sentinelInfo else none := by
  induction mids with
  | nil =>
    intro d x
    cases hdx : d x <;> simp [AutoALM2.fillUnknown, hdx]
  | cons k rest ih =>
    intro d x
    rw [AutoALM2.fillUnknown]
    cases hdk : d k with
    | some v =>
      rw [ih]
      show (match d x with
        | some v => some v
        | none => if x ∈ rest then some AutoALM2.sentinelInfo else none) = _
      cases hdx : d x with
      | some w => simp [hdx]
      | none =>
        have hxk : x ≠ k := fun h => by rw [h, hdk] at hdx; exact Option.noConfusion hdx
        simp [hdx, List.mem_cons, hxk]
    | none =>
      rw [ih]
      show (match AutoALM2.upd d k AutoALM2.sentinelInfo x with
        | some v => some v
        | none => if x ∈ rest then some AutoALM2.sentinelInfo else none) = _
      by_cases hxk : x = k
      · subst hxk
        simp [AutoALM2.upd, hdk, List.mem_cons]
      · cases hdx : d x with
        | some w => simp [AutoALM2.upd, hxk, hdx]
        | none => simp [AutoALM2.upd, hxk, hdx, List.mem_cons]

/-- Scanning one workspace's models does not touch a key matched by none
of them. -/
theorem scanModels_apply_eq (mids : List String) (wid wname : String) :
    ∀ (models : List AutoALM2.Model) (d : String → Option AutoALM2.MInfo)
      (x : String), (∀ m ∈ models, m.id ≠ x) →
      AutoALM2.scanModels mids wid wname models d x = d x := by
  intro models
  induction models with
  | nil => intro d x _; rfl
  | cons m rest ih =>
    intro d x hx
    have hmx : m.id ≠ x := hx m (List.mem_cons_self m rest)
    have hrest : ∀ m' ∈ rest, m'.id ≠ x :=
      fun m' hm' => hx m' (List.mem_cons_of_mem m hm')
    rw [AutoALM2.scanModels]
    split
    · exact ih d x hrest
    · split
      · rw [ih _ x hrest]
        simp [AutoALM2.upd, hmx.symm]
      · exact ih d x hrest

/-- The whole scan does not touch a key matched in no workspace. -/
theorem scanWorkspaces_dict_eq (mids : List String) :
    ∀ (wss : List AutoALM2.Workspace)
      (acc : (String → Option AutoALM2.MInfo) × List String) (x : String),
      (∀ ws ∈ wss, ∀ m ∈ ws.models, m.id ≠ x) →
      (AutoALM2.scanWorkspaces mids wss acc).1 x = acc.1 x := by
  intro wss
  induction wss with
  | nil => intro acc x _; rfl
  | cons ws rest ih =>
    intro acc x hx
    have hws : ∀ m ∈ ws.models, m.id ≠ x := hx ws (List.mem_cons_self ws rest)
    have hrest : ∀ ws' ∈ rest, ∀ m ∈ ws'.models, m.id ≠ x :=
      fun ws' hws' => hx ws' (List.mem_cons_of_mem ws hws')
    rw [AutoALM2.scanWorkspaces]
    split
    · exact ih acc x hrest
    · rw [ih _ x hrest]
      exact scanModels_apply_eq mids ws.id ws.name ws.models acc.1 x hws

/-- The trace of scanned workspaces is every workspace with a non-empty
id, in listing order — independent of the requested model ids and of
where (or whether) they are found. -/
theorem scanWorkspaces_trace (mids : List String) :
    ∀ (wss : List AutoALM2.Workspace)
      (acc : (String → Option AutoALM2.MInfo) × List String),
      (AutoALM2.scanWorkspaces mids wss acc).2
        = acc.2 ++ (wss.filter (fun ws => ws.id != "")).map (fun ws => ws.id) := by
  intro wss
  induction wss with
  | nil => intro acc; simp [AutoALM2.scanWorkspaces]
  | cons ws rest ih =>
    intro acc
    rw [AutoALM2.scanWorkspaces]
    by_cases h : ws.id = ""
    · rw [if_pos h, ih]
      have : (ws.id != "") = false := by simp [h]
      rw [List.filter_cons, this]
      simp
    · rw [if_neg h, ih]
      have : (ws.id != "") = true := by simp [h]
      rw [List.filter_cons, this]
      simp

/-- C7 counterexample: resolving model id `"mX"`, present in no
workspace, does not fail — `discover_model_and_workspace_names` maps it
to the placeholder entry
`{"model_name": "(unknown)", "workspace_id": None, "workspace_name": "(unknown)"}`,
refuting the claim that scanning resolution fails with `NotFoundError`
rather than returning a placeholder/sentinel. -/
theorem C7_counterexample :
    (AutoALM2.discover_model_and_workspace_names
        [{ id := "w1", name := "WS One", models := [{ id := "mA", name := "Model A" }] }]
        ["mX"]).1 "mX"
      = some AutoALM2.sentinelInfo := by
  rfl

/-- C7 (amended): for every requested model id the cited scanning
functions always return an entry — never an error; when no workspace's
model listing contains the id, that entry is the placeholder sentinel
(`model_name "(unknown)"`, `workspace_id None`), not a failure. -/
theorem C7_unknown_model_gets_sentinel (workspaces : List AutoALM2.Workspace)
    (mids : List String) (mid : String) (hm : mid ∈ mids) :
    (∃ info, (AutoALM2.discover_model_and_workspace_names workspaces mids).1 mid
        = some info) ∧
    ((∀ ws ∈ workspaces, ∀ m ∈ ws.models, m.id ≠ mid) →
      (AutoALM2.discover_model_and_workspace_names workspaces mids).1 mid
        = some AutoALM2.sentinelInfo) := by
  constructor
  · show ∃ info, AutoALM2.fillUnknown mids
        (AutoALM2.scanWorkspaces mids workspaces ((fun _ => none), [])).1 mid
      = some info
    rw [fillUnknown_apply]
    cases hd : (AutoALM2.scanWorkspaces mids workspaces ((fun _ => none), [])).1 mid with
    | some v => exact ⟨v, rfl⟩
    | none => exact ⟨AutoALM2.sentinelInfo, by simp [hm]⟩
  · intro habs
    show AutoALM2.fillUnknown mids
        (AutoALM2.scanWorkspaces mids workspaces ((fun _ => none), [])).1 mid
      = some AutoALM2.sentinelInfo
    rw [fillUnknown_apply,
      scanWorkspaces_dict_eq mids workspaces _ mid habs]
    rw [if_pos hm]

/-- Witness for C7 (amended): two workspaces, neither containing `"mZ"`. -/
theorem C7_unknown_model_gets_sentinel_witness :
    ("mZ" : String) ∈ (["mB", "mZ"] : List String) ∧
    (AutoALM2.discover_model_and_workspace_names
        [{ id := "w1", name := "W1", models := [{ id := "mA", name := "A" }] },
         { id := "w2", name := "W2", models := [{ id := "mB", name := "B" }] }]
        ["mB", "mZ"]).1 "mZ"
      = some AutoALM2.sentinelInfo :=
  ⟨by decide,
   (C7_unknown_model_gets_sentinel
      [{ id := "w1", name := "W1", models := [{ id := "mA", name := "A" }] },
       { id := "w2", name := "W2", models := [{ id := "mB", name := "B" }] }]
      ["mB", "mZ"] "mZ" (by decide)).2 (by decide)⟩

/-- C8 counterexample: with the model `"M"` present only in the 3rd of 5
workspaces, the scan still enumerates the models of workspaces 4 and 5 —
the trace is all five workspaces, not just the first three — refuting
the claim that no further workspaces are enumerated after a match. -/
theorem C8_counterexample :
    (AutoALM2.discover_model_and_workspace_names
        [{ id := "w1", name := "W1", models := [] },
         { id := "w2", name := "W2", models := [] },
         { id := "w3", name := "W3", models := [{ id := "M", name := "The Model" }] },
         { id := "w4", name := "W4", models := [] },
         { id := "w5", name := "W5", models := [] }] ["M"]).2
      = ["w1", "w2", "w3", "w4", "w5"] ∧
    (AutoALM2.discover_model_and_workspace_names
        [{ id := "w1", name := "W1", models := [] },
         { id := "w2", name := "W2", models := [] },
         { id := "w3", name := "W3", models := [{ id := "M", name := "The Model" }] },
         { id := "w4", name := "W4", models := [] },
         { id := "w5", name := "W5", models := [] }] ["M"]).1 "M"
      = some { model_name := "The Model", workspace_id := some "w3",
               workspace_name := "W3" } := by
  exact ⟨rfl, rfl⟩

/-- C8 (amended): the scan enumerates the models of EVERY workspace with
a non-empty id, in listing order, unconditionally — there is no
short-circuit once the requested model is found. -/
theorem C8_scan_enumerates_all_workspaces (workspaces : List AutoALM2.Workspace)
    (mids : List String) :
    (AutoALM2.discover_model_and_workspace_names workspaces mids).2
      = (workspaces.filter (fun ws => ws.id != "")).map (fun ws => ws.id) := by
  rw [AutoALM2.discover_model_and_workspace_names]
  exact scanWorkspaces_trace mids workspaces _

end ScanClaims
